import Mathlib

/-!
Verification development for the Calert repository: shallow embedding of the
two serverless functions (supabase/functions/sync-calendars/index.ts and
supabase/functions/fetch-events/index.ts) and of the frontend auth-state
profile upsert (the AuthProvider component), together with theorems about the
claims of the specification.

Modelling conventions:
- ISO date-time strings are modelled as instants (Int, e.g. minutes or
  milliseconds since an epoch); an absent or invalid dateTime field is none.
- JavaScript truthiness on strings (undefined, null and the empty string are
  falsy) is modelled by jsTruthy / jsOrStr below.
- Each provider HTTP call is modelled by a response value carried in the
  request context; the handler consuming that value only after its
  precondition checks is what makes the no-network-call-before-preconditions
  statements expressible (the result is independent of the response value).
- Storage operations that can fail (delete, insert, upsert) carry an
  Option String error field in the context: none means the call succeeded,
  some msg means the storage layer reported error msg.
-/

namespace Calert

/-- JS truthiness of an optional string value: undefined/null and the empty
string are falsy, every other string is truthy. -/
def jsTruthy : Option String → Bool
  | none => false
  | some s => !(s == "")

/-- JS `a || b` for a string `a`: yields `b` when `a` is the empty string. -/
def jsOrStr (a b : String) : String :=
  if a == "" then b else a

/-- JS `a || b` for an optional string `a` and a string default `b`. -/
def jsOrOptStr (a : Option String) (b : String) : String :=
  match a with
  | none => b
  | some s => jsOrStr s b

/-! ## fetch-events: data model (from supabase/functions/fetch-events/index.ts) -/

/-- The start/end field of a Google event: `dateTime?` (modelled as a parsed
instant) and `date?` (the all-day date string). -/
structure EventDateTime where
  dateTime : Option Int
  date : Option String
deriving DecidableEq

/-- The GoogleEvent interface of fetch-events/index.ts. -/
structure GoogleEvent where
  id : String
  summary : String
  description : Option String
  start : EventDateTime
  «end» : EventDateTime
  location : Option String
  htmlLink : Option String
  hangoutLink : Option String
deriving DecidableEq

/-- The normalized event shape returned by fetch-events. -/
structure CalertEvent where
  id : String
  title : String
  description : String
  startTime : Int
  endTime : Int
  location : String
  meetingLink : String
deriving DecidableEq

/-- The all-day filter predicate: `event.start.dateTime && event.end.dateTime`
(an event is kept only when both start and end carry a dateTime). -/
def isTimedEvent (e : GoogleEvent) : Bool :=
  e.start.dateTime.isSome && e.«end».dateTime.isSome

/-- The map step of fetch-events: normalize one (timed) Google event.
After the filter both dateTime fields are present, so the getD default is
never observed. -/
def formatEvent (e : GoogleEvent) : CalertEvent :=
  { id := e.id
    title := jsOrStr e.summary "Untitled Event"
    description := jsOrOptStr e.description ""
    startTime := e.start.dateTime.getD 0
    endTime := e.«end».dateTime.getD 0
    location := jsOrOptStr e.location ""
    meetingLink := jsOrOptStr e.hangoutLink (jsOrOptStr e.htmlLink "") }

/-- filteredEvents of fetch-events/index.ts: drop all-day events, then map to
the normalized shape. -/
def filteredEvents (events : List GoogleEvent) : List CalertEvent :=
  (events.filter isTimedEvent).map formatEvent

/-- The next upcoming event: first element of the (provider-ordered) list whose
start instant is strictly after now (`eventStart > now`). -/
def nextEvent (events : List CalertEvent) (now : Int) : Option CalertEvent :=
  events.find? (fun e => now < e.startTime)

/-- One row of the user_settings table, restricted to the fields the two
functions read or write. -/
structure UserSettings where
  service_enabled : Bool
  selected_calendar_id : Option String
  google_access_token : Option String
deriving DecidableEq

/-- Outcome of the call to the Google events endpoint: a 2xx response carrying
the items array, or a non-ok response with its status and body text. -/
inductive EventsApiResponse where
  | ok (items : List GoogleEvent)
  | httpError (status : Nat) (body : String)
deriving DecidableEq

/-- Result of supabaseClient.auth.getUser on the bearer token. -/
inductive AuthState where
  | ok (userId : String)
  | authError (message : String)
  | noUser
deriving DecidableEq

/-- Everything a single fetch-events invocation depends on: the request
header, the auth lookup result, the caller's settings row (none = read error
or no row), the provider response the events call would produce, and the
current instant. -/
structure FetchContext where
  authHeader : Option String
  auth : AuthState
  settings : Option UserSettings
  eventsResponse : EventsApiResponse
  now : Int

/-- Outcome of the fetch-events handler body: the fields of the success JSON,
or the message of the thrown error. -/
inductive FetchOutcome where
  | success (events : List CalertEvent) (next : Option CalertEvent) (totalCount : Nat)
  | failure (error : String)
deriving DecidableEq

/-- The checks of fetch-events/index.ts performed before the provider call, in
source order: authorization header, getUser, settings row, service flag,
selected calendar, stored access token. -/
def fetchPrecheck (ctx : FetchContext) : Except String UserSettings :=
  match ctx.authHeader with
  | none => .error "No authorization header provided"
  | some _ =>
    match ctx.auth with
    | .authError m => .error ("Authentication error: " ++ m)
    | .noUser => .error "User not authenticated"
    | .ok _ =>
      match ctx.settings with
      | none => .error "User settings not found. Please complete setup first."
      | some s =>
        if !s.service_enabled then .error "Calert service is not enabled"
        else if !(jsTruthy s.selected_calendar_id) then .error "No calendar selected"
        else if !(jsTruthy s.google_access_token) then .error "No Google access token found. Please reconnect your Google account."
        else .ok s

/-- The fetch-events handler body: precondition checks, then the provider
call, then filtering, formatting and next-event selection. -/
def fetchEventsHandler (ctx : FetchContext) : FetchOutcome :=
  match fetchPrecheck ctx with
  | .error e => .failure e
  | .ok _ =>
    match ctx.eventsResponse with
    | .httpError status body =>
      if status == 401 then
        .failure "Google access token expired. Please reconnect your Google account."
      else
        .failure ("Google Calendar API error: " ++ toString status ++ " - " ++ body)
    | .ok items =>
      let evts := filteredEvents items
      .success evts (nextEvent evts ctx.now) evts.length

/-! ## sync-calendars: data model (from supabase/functions/sync-calendars/index.ts) -/

/-- The GoogleCalendar interface of sync-calendars/index.ts. -/
structure GoogleCalendar where
  id : String
  summary : String
  description : Option String
  primary : Option Bool
deriving DecidableEq

/-- One row of the user_calendars table, as inserted by sync-calendars. -/
structure CalendarRow where
  user_id : String
  calendar_id : String
  calendar_name : String
  calendar_description : Option String
  is_primary : Bool
deriving DecidableEq

/-- One row of the user_settings table keyed by owner, as stored. The schema
defaults (service_enabled false, other fields null) apply to a row freshly
created by the sync upsert. -/
structure SettingsRow where
  user_id : String
  selected_calendar_id : Option String
  service_enabled : Bool
  google_access_token : Option String
deriving DecidableEq

/-- The relational store as the two functions see it. -/
structure Database where
  user_calendars : List CalendarRow
  user_settings : List SettingsRow
deriving DecidableEq

/-- The row sync-calendars builds for one fetched calendar:
`description || null` (empty string becomes null) and `primary || false`. -/
def calendarInsertOf (uid : String) (c : GoogleCalendar) : CalendarRow :=
  { user_id := uid
    calendar_id := c.id
    calendar_name := c.summary
    calendar_description := if jsTruthy c.description then c.description else none
    is_primary := c.primary.getD false }

/-- Outcome of the call to the Google calendarList endpoint. -/
inductive CalendarListResponse where
  | ok (items : List GoogleCalendar)
  | httpError (status : Nat) (body : String)
deriving DecidableEq

/-- Everything a single sync-calendars invocation depends on. The three
Option String fields model the storage layer result of the delete, insert and
settings-upsert calls: none = success, some msg = storage error msg. -/
structure SyncContext where
  authHeader : Option String
  auth : AuthState
  providerToken : Option String
  calendarResponse : CalendarListResponse
  deleteError : Option String
  insertError : Option String
  settingsError : Option String

/-- Outcome of the sync-calendars handler body. -/
inductive SyncOutcome where
  | success (calendars : List CalendarRow) (message : String)
  | failure (error : String)
deriving DecidableEq

/-- `.delete().eq('user_id', user.id)` on user_calendars. -/
def deleteUserCalendars (uid : String) (db : Database) : Database :=
  { db with user_calendars := db.user_calendars.filter (fun r => !(r.user_id == uid)) }

/-- `.insert(calendarInserts)` on user_calendars. -/
def insertCalendars (rows : List CalendarRow) (db : Database) : Database :=
  { db with user_calendars := db.user_calendars ++ rows }

/-- `.upsert({user_id, google_access_token}, {onConflict: 'user_id'})` on
user_settings: update the token on every row of the caller, or create a fresh
row with the schema defaults when the caller has none. -/
def upsertSettingsToken (uid token : String) (rows : List SettingsRow) : List SettingsRow :=
  if rows.any (fun r => r.user_id == uid) then
    rows.map (fun r =>
      if r.user_id == uid then { r with google_access_token := some token } else r)
  else
    rows ++ [{ user_id := uid
               selected_calendar_id := none
               service_enabled := false
               google_access_token := some token }]

/-- The checks of sync-calendars/index.ts performed before the provider call:
authorization header, getUser, session provider token. -/
def syncPrecheck (ctx : SyncContext) : Except String String :=
  match ctx.authHeader with
  | none => .error "No authorization header provided"
  | some _ =>
    match ctx.auth with
    | .authError m => .error ("Authentication error: " ++ m)
    | .noUser => .error "User not authenticated"
    | .ok uid =>
      if !(jsTruthy ctx.providerToken) then
        .error "No Google access token found. Please reconnect your Google account."
      else .ok uid

/-- The tail of the sync handler after a (possibly skipped) insert: the
settings upsert, whose storage error is only logged, then the success
response. -/
def syncFinish (ctx : SyncContext) (uid : String) (calendarInserts : List CalendarRow)
    (db : Database) : SyncOutcome × Database :=
  let db3 :=
    if ctx.settingsError.isNone then
      { db with user_settings := upsertSettingsToken uid (ctx.providerToken.getD "") db.user_settings }
    else db
  (.success calendarInserts
    ("Successfully synced " ++ toString calendarInserts.length ++ " calendars"), db3)

/-- The sync-calendars handler body: prechecks, provider call, delete of the
existing rows (a delete error is only logged and does not abort), insert of
the fetched rows when nonempty (an insert error is thrown), then the settings
upsert (an upsert error is only logged) and the success response. -/
def syncCalendarsHandler (ctx : SyncContext) (db : Database) : SyncOutcome × Database :=
  match syncPrecheck ctx with
  | .error e => (.failure e, db)
  | .ok uid =>
    match ctx.calendarResponse with
    | .httpError status body =>
      (.failure ("Google Calendar API error: " ++ toString status ++ " - " ++ body), db)
    | .ok calendars =>
      let calendarInserts := calendars.map (calendarInsertOf uid)
      let db1 := if ctx.deleteError.isNone then deleteUserCalendars uid db else db
      if calendarInserts.length > 0 then
        match ctx.insertError with
        | some m => (.failure ("Error inserting calendars: " ++ m), db1)
        | none => syncFinish ctx uid calendarInserts (insertCalendars calendarInserts db1)
      else
        syncFinish ctx uid calendarInserts db1

/-! ## HTTP layer: the top-level try/catch of both functions -/

/-- The JSON body of a response of either function. -/
inductive ResponseBody where
  | fetchSuccess (events : List CalertEvent) (next : Option CalertEvent) (totalCount : Nat)
  | syncSuccess (calendars : List CalendarRow) (message : String)
  | errorEnvelope (error : String)
deriving DecidableEq

/-- An HTTP response: status code and JSON body. -/
structure HttpResponse where
  status : Nat
  body : ResponseBody
deriving DecidableEq

/-- The fetch-events function at the HTTP level: a thrown error is caught and
turned into status 500 with the error envelope, a normal return is status 200
with the success body. -/
def fetchEventsResponse (ctx : FetchContext) : HttpResponse :=
  match fetchEventsHandler ctx with
  | .success evs ne n => { status := 200, body := .fetchSuccess evs ne n }
  | .failure e => { status := 500, body := .errorEnvelope e }

/-- The sync-calendars function at the HTTP level. -/
def syncCalendarsResponse (ctx : SyncContext) (db : Database) : HttpResponse × Database :=
  match syncCalendarsHandler ctx db with
  | (.success cals msg, db1) => ({ status := 200, body := .syncSuccess cals msg }, db1)
  | (.failure e, db1) => ({ status := 500, body := .errorEnvelope e }, db1)

/-! ## Frontend auth state: profile upsert (from the AuthProvider component) -/

/-- The identity-provider user as the frontend reads it: id, optional email,
and the optional user_metadata fields full_name and avatar_url. -/
structure AuthUser where
  id : String
  email : Option String
  full_name : Option String
  avatar_url : Option String
deriving DecidableEq

/-- An identity-provider session (session.user, session.provider_token). -/
structure AuthSession where
  user : AuthUser
  provider_token : Option String
deriving DecidableEq

/-- The record upserted into profiles by createOrUpdateProfile: display_name
is `user_metadata?.full_name || user.email?.split horizontally at the first
at-sign, taking the part before it`. -/
structure ProfileRecord where
  user_id : String
  email : Option String
  display_name : Option String
  avatar_url : Option String
deriving DecidableEq

/-- The first element of splitting the email at the at-sign: the part of the
email before the first at-sign (the whole email when it has no at-sign). -/
def localPart (email : String) : String :=
  String.mk (email.data.takeWhile (fun c => !(c == '@')))

/-- The profiles row built by createOrUpdateProfile of the AuthProvider. -/
def createOrUpdateProfileRecord (u : AuthUser) : ProfileRecord :=
  { user_id := u.id
    email := u.email
    display_name :=
      if jsTruthy u.full_name then u.full_name
      else u.email.map localPart
    avatar_url := u.avatar_url }

/-- The frontend auth state held by the AuthProvider. -/
structure AuthUIState where
  user : Option AuthUser
  session : Option AuthSession
  loading : Bool
deriving DecidableEq

/-- The onAuthStateChange listener of the AuthProvider: it updates the UI
state synchronously and, on a SIGNED_IN event with a user, schedules the
profile upsert with setTimeout(..., 0). The scheduled upserts are returned as
a deferred-task list: they run on a later turn of the event loop and no caller
awaits them. -/
def onAuthStateChange (event : String) (session : Option AuthSession) :
    AuthUIState × List ProfileRecord :=
  let st : AuthUIState :=
    { user := session.map (fun s => s.user), session := session, loading := false }
  let deferredUpserts :=
    match session with
    | some s => if event == "SIGNED_IN" then [createOrUpdateProfileRecord s.user] else []
    | none => []
  (st, deferredUpserts)

/-! ## Helper lemmas -/

/-- A successful fetch run determines the shape of the outcome: the provider
call returned items, the events are the filtered and formatted items, the
next-event field is the first filtered event starting after now, and the
count is the length of the filtered list. -/
theorem fetch_success_shape (ctx : FetchContext) (evs : List CalertEvent)
    (ne : Option CalertEvent) (n : Nat)
    (hrun : fetchEventsHandler ctx = .success evs ne n) :
    ∃ items, ctx.eventsResponse = .ok items ∧ evs = filteredEvents items ∧
      ne = nextEvent (filteredEvents items) ctx.now ∧ n = (filteredEvents items).length := by
  unfold fetchEventsHandler at hrun
  cases hpre : fetchPrecheck ctx <;> rw [hpre] at hrun
  case error e => exact absurd hrun (by simp)
  case ok s =>
    cases her : ctx.eventsResponse <;> rw [her] at hrun
    case httpError status body =>
      cases h401 : (status == 401) <;> simp [h401] at hrun
    case ok items =>
      simp only [FetchOutcome.success.injEq] at hrun
      exact ⟨items, rfl, hrun.1.symm, hrun.2.1.symm, hrun.2.2.symm⟩

/-- A passed sync precheck pins the auth result and the provider token. -/
theorem syncPrecheck_ok (ctx : SyncContext) (uid : String)
    (hpre : syncPrecheck ctx = .ok uid) :
    ctx.auth = .ok uid ∧ jsTruthy ctx.providerToken = true := by
  unfold syncPrecheck at hpre
  cases hah : ctx.authHeader <;> rw [hah] at hpre
  case none => exact absurd hpre (by simp)
  case some a =>
    cases hau : ctx.auth <;> rw [hau] at hpre
    case authError m => exact absurd hpre (by simp)
    case noUser => exact absurd hpre (by simp)
    case ok uid1 =>
      cases htok : jsTruthy ctx.providerToken <;> simp [htok] at hpre
      exact ⟨by rw [hpre], rfl⟩

/-- Components of syncFinish: the success outcome with its message, the
untouched calendar rows, and the settings rows after the (possibly failing,
only-logged) token upsert. -/
theorem syncFinish_components (ctx : SyncContext) (uid : String)
    (ins : List CalendarRow) (d : Database) :
    (syncFinish ctx uid ins d).1 =
      .success ins ("Successfully synced " ++ toString ins.length ++ " calendars")
    ∧ (syncFinish ctx uid ins d).2.user_calendars = d.user_calendars
    ∧ (syncFinish ctx uid ins d).2.user_settings =
        (if ctx.settingsError.isNone then
            upsertSettingsToken uid (ctx.providerToken.getD "") d.user_settings
          else d.user_settings) := by
  unfold syncFinish
  cases h : ctx.settingsError.isNone <;> simp [h]

/-- Equation for the sync handler on a failed precheck. -/
theorem syncCalendarsHandler_precheck_fail (ctx : SyncContext) (db : Database) (e : String)
    (hpre : syncPrecheck ctx = .error e) :
    syncCalendarsHandler ctx db = (.failure e, db) := by
  unfold syncCalendarsHandler; rw [hpre]

/-- Equation for the sync handler on a non-ok calendarList response. -/
theorem syncCalendarsHandler_upstream_fail (ctx : SyncContext) (db : Database)
    (uid : String) (status : Nat) (body : String)
    (hpre : syncPrecheck ctx = .ok uid)
    (hcal : ctx.calendarResponse = .httpError status body) :
    syncCalendarsHandler ctx db =
      (.failure ("Google Calendar API error: " ++ toString status ++ " - " ++ body), db) := by
  unfold syncCalendarsHandler; rw [hpre, hcal]

/-- Equation for the sync handler on a nonempty fetched list with a working
insert. -/
theorem syncCalendarsHandler_ok_insert (ctx : SyncContext) (db : Database)
    (uid : String) (cals : List GoogleCalendar)
    (hpre : syncPrecheck ctx = .ok uid)
    (hcal : ctx.calendarResponse = .ok cals)
    (hlen : (cals.map (calendarInsertOf uid)).length > 0)
    (hins : ctx.insertError = none) :
    syncCalendarsHandler ctx db =
      syncFinish ctx uid (cals.map (calendarInsertOf uid))
        (insertCalendars (cals.map (calendarInsertOf uid))
          (if ctx.deleteError.isNone then deleteUserCalendars uid db else db)) := by
  unfold syncCalendarsHandler; rw [hpre, hcal]; simp only [hins, if_pos hlen]

/-- Equation for the sync handler on a nonempty fetched list with a failing
insert: the thrown storage error, with the delete (when it worked) already
applied. -/
theorem syncCalendarsHandler_insert_fail (ctx : SyncContext) (db : Database)
    (uid : String) (cals : List GoogleCalendar) (m : String)
    (hpre : syncPrecheck ctx = .ok uid)
    (hcal : ctx.calendarResponse = .ok cals)
    (hlen : (cals.map (calendarInsertOf uid)).length > 0)
    (hins : ctx.insertError = some m) :
    syncCalendarsHandler ctx db =
      (.failure ("Error inserting calendars: " ++ m),
        (if ctx.deleteError.isNone then deleteUserCalendars uid db else db)) := by
  unfold syncCalendarsHandler; rw [hpre, hcal]; simp only [hins, if_pos hlen]

/-- Equation for the sync handler on an empty fetched list: the insert is
skipped entirely. -/
theorem syncCalendarsHandler_ok_empty (ctx : SyncContext) (db : Database)
    (uid : String) (cals : List GoogleCalendar)
    (hpre : syncPrecheck ctx = .ok uid)
    (hcal : ctx.calendarResponse = .ok cals)
    (hlen : ¬ (cals.map (calendarInsertOf uid)).length > 0) :
    syncCalendarsHandler ctx db =
      syncFinish ctx uid (cals.map (calendarInsertOf uid))
        (if ctx.deleteError.isNone then deleteUserCalendars uid db else db) := by
  unfold syncCalendarsHandler; rw [hpre, hcal]; simp only [if_neg hlen]

/-- A successful sync run determines the shape of the outcome and of the
final store: the prechecks passed, the provider call returned a calendar
list, the response rows are that list mapped to insert rows, the stored
calendar rows are the (delete-filtered, unless the delete failed) old rows
followed by the inserted rows, and the settings rows got the token upsert
(unless the upsert failed). -/
theorem sync_success_shape (ctx : SyncContext) (db : Database)
    (rows : List CalendarRow) (msg : String)
    (hrun : (syncCalendarsHandler ctx db).1 = .success rows msg) :
    ∃ uid cals,
      ctx.auth = .ok uid ∧
      jsTruthy ctx.providerToken = true ∧
      ctx.calendarResponse = .ok cals ∧
      rows = cals.map (calendarInsertOf uid) ∧
      msg = "Successfully synced " ++ toString rows.length ++ " calendars" ∧
      (syncCalendarsHandler ctx db).2.user_calendars =
        ((if ctx.deleteError.isNone then
            db.user_calendars.filter (fun r => !(r.user_id == uid))
          else db.user_calendars) ++ rows) ∧
      (syncCalendarsHandler ctx db).2.user_settings =
        (if ctx.settingsError.isNone then
            upsertSettingsToken uid (ctx.providerToken.getD "") db.user_settings
          else db.user_settings) := by
  cases hpre : syncPrecheck ctx
  case error e =>
    rw [syncCalendarsHandler_precheck_fail ctx db e hpre] at hrun
    exact absurd hrun (by simp)
  case ok uid =>
    obtain ⟨hauth, htok⟩ := syncPrecheck_ok ctx uid hpre
    cases hcal : ctx.calendarResponse
    case httpError status body =>
      rw [syncCalendarsHandler_upstream_fail ctx db uid status body hpre hcal] at hrun
      exact absurd hrun (by simp)
    case ok cals =>
      by_cases hlen : (cals.map (calendarInsertOf uid)).length > 0
      · cases hins : ctx.insertError with
        | some m =>
          rw [syncCalendarsHandler_insert_fail ctx db uid cals m hpre hcal hlen hins] at hrun
          exact absurd hrun (by simp)
        | none =>
          have hH := syncCalendarsHandler_ok_insert ctx db uid cals hpre hcal hlen hins
          obtain ⟨h1, h2, h3⟩ := syncFinish_components ctx uid (cals.map (calendarInsertOf uid))
            (insertCalendars (cals.map (calendarInsertOf uid))
              (if ctx.deleteError.isNone then deleteUserCalendars uid db else db))
          rw [hH, h1] at hrun
          rw [SyncOutcome.success.injEq] at hrun
          obtain ⟨hrows, hmsg⟩ := hrun
          refine ⟨uid, cals, hauth, htok, rfl, hrows.symm, by rw [← hrows, ← hmsg], ?_, ?_⟩
          · rw [hH, h2, ← hrows]
            cases hde : ctx.deleteError.isNone <;>
              simp [hde, insertCalendars, deleteUserCalendars]
          · rw [hH, h3]
            cases hde : ctx.deleteError.isNone <;>
              simp [hde, insertCalendars, deleteUserCalendars]
      · have hH := syncCalendarsHandler_ok_empty ctx db uid cals hpre hcal hlen
        have hnil : cals.map (calendarInsertOf uid) = [] := by
          simpa using Nat.eq_zero_of_not_pos hlen
        obtain ⟨h1, h2, h3⟩ := syncFinish_components ctx uid (cals.map (calendarInsertOf uid))
          (if ctx.deleteError.isNone then deleteUserCalendars uid db else db)
        rw [hH, h1] at hrun
        rw [SyncOutcome.success.injEq] at hrun
        obtain ⟨hrows, hmsg⟩ := hrun
        refine ⟨uid, cals, hauth, htok, rfl, hrows.symm, by rw [← hrows, ← hmsg], ?_, ?_⟩
        · rw [hH, h2, ← hrows, hnil, List.append_nil]
          cases hde : ctx.deleteError.isNone <;>
            simp [hde, deleteUserCalendars]
        · rw [hH, h3]
          cases hde : ctx.deleteError.isNone <;>
            simp [hde, deleteUserCalendars]

/-- On a list pairwise-sorted by start instant, the first element found whose
start is after now is minimal among all elements whose start is after now. -/
theorem nextEvent_min (now : Int) (l : List CalertEvent)
    (hs : l.Pairwise (fun a b => a.startTime ≤ b.startTime))
    (e : CalertEvent) (he : nextEvent l now = some e) :
    ∀ f ∈ l, now < f.startTime → e.startTime ≤ f.startTime := by
  induction l with
  | nil => simp [nextEvent] at he
  | cons a t ih =>
    by_cases hpa : now < a.startTime
    · have : nextEvent (a :: t) now = some a := by
        unfold nextEvent
        exact List.find?_cons_of_pos t (by simpa using hpa)
      rw [this] at he
      obtain rfl : a = e := by simpa using he
      intro f hf hnf
      rcases List.mem_cons.mp hf with rfl | hft
      · exact le_refl _
      · exact (List.pairwise_cons.mp hs).1 f hft
    · have : nextEvent (a :: t) now = nextEvent t now := by
        unfold nextEvent
        exact List.find?_cons_of_neg t (by simpa using hpa)
      rw [this] at he
      intro f hf hnf
      rcases List.mem_cons.mp hf with rfl | hft
      · exact absurd hnf hpa
      · exact ih (List.pairwise_cons.mp hs).2 he f hft hnf

/-- The found next event is in the list and starts after now. -/
theorem nextEvent_mem (now : Int) (l : List CalertEvent)
    (e : CalertEvent) (he : nextEvent l now = some e) :
    e ∈ l ∧ now < e.startTime := by
  refine ⟨List.mem_of_find?_eq_some he, ?_⟩
  have := List.find?_some he
  simpa using this

/-- When no next event is found, no element starts after now. -/
theorem nextEvent_none (now : Int) (l : List CalertEvent)
    (he : nextEvent l now = none) :
    ∀ f ∈ l, ¬ now < f.startTime := by
  intro f hf
  have := List.find?_eq_none.mp he f hf
  simpa using this

/-- Rows surviving the per-user delete and then restricted to that user: none. -/
theorem filter_deleted_self (uid : String) (l : List CalendarRow) :
    (l.filter (fun r => !(r.user_id == uid))).filter (fun r => r.user_id == uid) = [] := by
  induction l with
  | nil => rfl
  | cons a t ih =>
    cases h : (a.user_id == uid) <;> simp [List.filter_cons, h, ih]

/-- The per-user delete filter is idempotent. -/
theorem filter_deleted_idem (uid : String) (l : List CalendarRow) :
    (l.filter (fun r => !(r.user_id == uid))).filter (fun r => !(r.user_id == uid)) =
      l.filter (fun r => !(r.user_id == uid)) := by
  induction l with
  | nil => rfl
  | cons a t ih =>
    cases h : (a.user_id == uid) <;> simp [List.filter_cons, h, ih]

/-- Every inserted row is tagged with the caller, so restricting the inserted
rows to the caller keeps them all. -/
theorem inserts_filter_self (uid : String) (cals : List GoogleCalendar) :
    (cals.map (calendarInsertOf uid)).filter (fun r => r.user_id == uid) =
      cals.map (calendarInsertOf uid) := by
  induction cals with
  | nil => rfl
  | cons c t ih => simp [List.filter_cons, calendarInsertOf, ih]

/-- Restricting the inserted rows to other users leaves nothing. -/
theorem inserts_filter_other (uid : String) (cals : List GoogleCalendar) :
    (cals.map (calendarInsertOf uid)).filter (fun r => !(r.user_id == uid)) = [] := by
  induction cals with
  | nil => rfl
  | cons c t ih => simp [List.filter_cons, calendarInsertOf, ih]

/-- After the token upsert the caller owns a settings row carrying the token. -/
theorem upsert_token_mem (uid token : String) (rows : List SettingsRow) :
    ∃ r, r ∈ upsertSettingsToken uid token rows ∧ r.user_id = uid ∧
      r.google_access_token = some token := by
  unfold upsertSettingsToken
  by_cases h : rows.any (fun r => r.user_id == uid)
  · obtain ⟨r0, hr0m, hr0⟩ := List.any_eq_true.mp h
    rw [if_pos h]
    refine ⟨{ r0 with google_access_token := some token }, ?_, ?_, rfl⟩
    · refine List.mem_map.mpr ⟨r0, hr0m, ?_⟩
      simp [hr0]
    · simpa using eq_of_beq hr0
  · rw [if_neg h]
    exact ⟨_, List.mem_append_right rows (List.mem_singleton.mpr rfl), rfl, rfl⟩

/-- After the token upsert every settings row of the caller carries the token. -/
theorem upsert_token_all (uid token : String) (rows : List SettingsRow) :
    ∀ r ∈ upsertSettingsToken uid token rows, r.user_id = uid →
      r.google_access_token = some token := by
  unfold upsertSettingsToken
  by_cases h : rows.any (fun r => r.user_id == uid)
  · rw [if_pos h]
    intro r hr hruid
    obtain ⟨r0, hr0m, hr0⟩ := List.mem_map.mp hr
    cases hb : (r0.user_id == uid)
    · rw [hb] at hr0
      simp at hr0
      subst hr0
      exact absurd (beq_iff_eq.mpr hruid) (by simp [hb])
    · rw [hb] at hr0
      simp at hr0
      rw [← hr0]
  · rw [if_neg h]
    intro r hr hruid
    rcases List.mem_append.mp hr with hm | hm
    · have hnone := List.any_eq_true.not.mp h
      push_neg at hnone
      exact absurd (beq_iff_eq.mpr hruid) (by simpa using hnone r hm)
    · obtain rfl := List.mem_singleton.mp hm
      rfl

/-! ## Claim theorems -/

/-- Claim C3 (corrected): when the provider event list is ordered by start
instant — as the request asks via orderBy=startTime — the nextEvent field of a
successful fetch response is the earliest event of the filtered, normalized
list whose start instant is strictly after now, and it is null exactly when no
filtered event starts strictly after now. (On an unsorted list the code
returns the first event in list order instead, see the counterexample.) -/
theorem next_event_earliest_when_sorted (ctx : FetchContext)
    (evs : List CalertEvent) (ne : Option CalertEvent) (n : Nat)
    (hsorted : evs.Pairwise (fun a b => a.startTime ≤ b.startTime))
    (hrun : fetchEventsHandler ctx = .success evs ne n) :
    (∀ e, ne = some e → e ∈ evs ∧ ctx.now < e.startTime ∧
      ∀ f ∈ evs, ctx.now < f.startTime → e.startTime ≤ f.startTime)
    ∧ (ne = none → ∀ f ∈ evs, ¬ ctx.now < f.startTime) := by
  obtain ⟨items, hok, hevs, hne, hn⟩ := fetch_success_shape ctx evs ne n hrun
  subst hevs
  constructor
  · intro e he
    rw [he] at hne
    obtain ⟨hmem, hafter⟩ := nextEvent_mem ctx.now _ e hne.symm
    exact ⟨hmem, hafter, nextEvent_min ctx.now _ hsorted e hne.symm⟩
  · intro he
    rw [he] at hne
    exact nextEvent_none ctx.now _ hne.symm

/-- Claim C4 (confirmed): an event contributes to the fetch result exactly
when both its start and its end carry a dateTime; an event lacking a dateTime
on either side — in particular a date-only all-day event, whatever its date —
is excluded by the filter. -/
theorem all_day_events_excluded (ctx : FetchContext) (items : List GoogleEvent)
    (evs : List CalertEvent) (ne : Option CalertEvent) (n : Nat)
    (hok : ctx.eventsResponse = .ok items)
    (hrun : fetchEventsHandler ctx = .success evs ne n) :
    (∀ g ∈ items, g.start.dateTime.isSome = true → g.«end».dateTime.isSome = true →
      formatEvent g ∈ evs)
    ∧ (∀ c ∈ evs, ∃ g, g ∈ items ∧ g.start.dateTime.isSome = true ∧
        g.«end».dateTime.isSome = true ∧ c = formatEvent g)
    ∧ (∀ g ∈ items, (g.start.dateTime = none ∨ g.«end».dateTime = none) →
        g ∉ items.filter isTimedEvent) := by
  obtain ⟨items1, hok1, hevs, hne, hn⟩ := fetch_success_shape ctx evs ne n hrun
  rw [hok] at hok1
  obtain rfl : items = items1 := by simpa using hok1
  subst hevs
  refine ⟨?_, ?_, ?_⟩
  · intro g hg hs he
    exact List.mem_map.mpr ⟨g, List.mem_filter.mpr ⟨hg, by simp [isTimedEvent, hs, he]⟩, rfl⟩
  · intro c hc
    obtain ⟨g, hgf, hfmt⟩ := List.mem_map.mp hc
    obtain ⟨hgm, hgt⟩ := List.mem_filter.mp hgf
    rw [isTimedEvent, Bool.and_eq_true] at hgt
    exact ⟨g, hgm, hgt.1, hgt.2, hfmt.symm⟩
  · intro g _ hnone hmem
    have hgt := (List.mem_filter.mp hmem).2
    rw [isTimedEvent, Bool.and_eq_true] at hgt
    rcases hnone with h | h <;> rw [h] at hgt <;> simp at hgt

/-- Claim C5 (confirmed): for an authenticated caller the four preconditions
are checked before the provider call, each failing with its own error: absent
settings row, disabled service flag, no selected calendar, no stored access
token. The result is the same for every possible provider response, so no
provider call influences a precondition failure. -/
theorem fetch_precondition_errors (ctx : FetchContext) (a uid : String)
    (hh : ctx.authHeader = some a) (ha : ctx.auth = .ok uid) :
    (ctx.settings = none → ∀ r,
      fetchEventsHandler { ctx with eventsResponse := r } =
        .failure "User settings not found. Please complete setup first.")
    ∧ (∀ s, ctx.settings = some s → s.service_enabled = false → ∀ r,
      fetchEventsHandler { ctx with eventsResponse := r } =
        .failure "Calert service is not enabled")
    ∧ (∀ s, ctx.settings = some s → s.service_enabled = true →
      jsTruthy s.selected_calendar_id = false → ∀ r,
      fetchEventsHandler { ctx with eventsResponse := r } =
        .failure "No calendar selected")
    ∧ (∀ s, ctx.settings = some s → s.service_enabled = true →
      jsTruthy s.selected_calendar_id = true →
      jsTruthy s.google_access_token = false → ∀ r,
      fetchEventsHandler { ctx with eventsResponse := r } =
        .failure "No Google access token found. Please reconnect your Google account.") := by
  refine ⟨?_, ?_, ?_, ?_⟩
  · intro hs r
    simp [fetchEventsHandler, fetchPrecheck, hh, ha, hs]
  · intro s hs hsvc r
    simp [fetchEventsHandler, fetchPrecheck, hh, ha, hs, hsvc]
  · intro s hs hsvc hcal r
    simp [fetchEventsHandler, fetchPrecheck, hh, ha, hs, hsvc, hcal]
  · intro s hs hsvc hcal htok r
    simp [fetchEventsHandler, fetchPrecheck, hh, ha, hs, hsvc, hcal, htok]

/-- Claim C6 (confirmed): when the preconditions pass and the provider events
endpoint answers with a non-ok status, a 401 fails with exactly the
token-expired message (and nothing else happens — no refresh path exists),
and any other status fails with the generic upstream error carrying the
status and body. -/
theorem fetch_upstream_errors (ctx : FetchContext) (a uid : String) (s : UserSettings)
    (hh : ctx.authHeader = some a) (ha : ctx.auth = .ok uid)
    (hs : ctx.settings = some s) (hsvc : s.service_enabled = true)
    (hcal : jsTruthy s.selected_calendar_id = true)
    (htok : jsTruthy s.google_access_token = true) :
    (∀ body, ctx.eventsResponse = .httpError 401 body →
      fetchEventsHandler ctx =
        .failure "Google access token expired. Please reconnect your Google account.")
    ∧ (∀ status body, ctx.eventsResponse = .httpError status body → status ≠ 401 →
      fetchEventsHandler ctx =
        .failure ("Google Calendar API error: " ++ toString status ++ " - " ++ body)) := by
  constructor
  · intro body her
    simp [fetchEventsHandler, fetchPrecheck, hh, ha, hs, hsvc, hcal, htok, her]
  · intro status body her hne
    simp [fetchEventsHandler, fetchPrecheck, hh, ha, hs, hsvc, hcal, htok, her, hne]

/-- Claim C7 (corrected): every failure thrown inside either function is
caught at the top level and becomes HTTP 500 with the error envelope, and
every response of either function is either a 200 success or such a 500;
however, a failed delete or a failed settings upsert in sync is only logged —
the request still returns 200 success (see the counterexample), so not every
storage failure produces a 500. -/
theorem failures_return_500_envelope :
    (∀ (ctx : FetchContext) (e : String), fetchEventsHandler ctx = .failure e →
      fetchEventsResponse ctx = { status := 500, body := .errorEnvelope e })
    ∧ (∀ ctx : FetchContext,
      (fetchEventsResponse ctx).status = 200 ∨ (fetchEventsResponse ctx).status = 500)
    ∧ (∀ (ctx : SyncContext) (db : Database) (e : String),
      (syncCalendarsHandler ctx db).1 = .failure e →
      (syncCalendarsResponse ctx db).1 = { status := 500, body := .errorEnvelope e })
    ∧ (∀ (ctx : SyncContext) (db : Database),
      (syncCalendarsResponse ctx db).1.status = 200 ∨
        (syncCalendarsResponse ctx db).1.status = 500) := by
  refine ⟨?_, ?_, ?_, ?_⟩
  · intro ctx e hf
    unfold fetchEventsResponse
    rw [hf]
  · intro ctx
    unfold fetchEventsResponse
    cases fetchEventsHandler ctx <;> simp
  · intro ctx db e hf
    unfold syncCalendarsResponse
    cases hH : syncCalendarsHandler ctx db with
    | mk o db1 =>
      rw [hH] at hf
      cases o <;> simp_all
  · intro ctx db
    unfold syncCalendarsResponse
    cases hH : syncCalendarsHandler ctx db with
    | mk o db1 => cases o <;> simp

/-- Claim C10 (confirmed): in every success outcome of fetch the totalCount
equals the length of the events array and the nextEvent, when non-null, is an
element of the events array. -/
theorem fetch_success_invariants (ctx : FetchContext)
    (evs : List CalertEvent) (ne : Option CalertEvent) (n : Nat)
    (hrun : fetchEventsHandler ctx = .success evs ne n) :
    n = evs.length ∧ ∀ e, ne = some e → e ∈ evs := by
  obtain ⟨items, hok, hevs, hne, hn⟩ := fetch_success_shape ctx evs ne n hrun
  subst hevs
  refine ⟨hn, ?_⟩
  intro e he
  rw [he] at hne
  exact (nextEvent_mem ctx.now _ e hne.symm).1

/-- Claim C1 (corrected): after a sync that returns success and whose delete
of the existing rows succeeded, the stored calendar rows owned by the caller
are exactly the fetched list mapped to rows (one row per fetched calendar,
tagged with the caller, primary flag preserved), with no leftover rows and no
extra rows; rows of other users are untouched. (When the delete fails it is
only logged and success is still returned with leftover rows, see the
counterexample.) -/
theorem calendars_replaced_wholesale (ctx : SyncContext) (db : Database)
    (uid : String) (cals : List GoogleCalendar)
    (rows : List CalendarRow) (msg : String)
    (hauth : ctx.auth = .ok uid)
    (hdel : ctx.deleteError = none)
    (hcal : ctx.calendarResponse = .ok cals)
    (hrun : (syncCalendarsHandler ctx db).1 = .success rows msg) :
    rows = cals.map (calendarInsertOf uid)
    ∧ (syncCalendarsHandler ctx db).2.user_calendars.filter
        (fun r => r.user_id == uid) = cals.map (calendarInsertOf uid)
    ∧ (syncCalendarsHandler ctx db).2.user_calendars.filter
        (fun r => !(r.user_id == uid)) =
        db.user_calendars.filter (fun r => !(r.user_id == uid)) := by
  obtain ⟨uid1, cals1, hauth1, htok1, hcal1, hrows, hmsg, hcals, hsets⟩ :=
    sync_success_shape ctx db rows msg hrun
  rw [hauth] at hauth1
  obtain rfl : uid = uid1 := by simpa using hauth1
  rw [hcal] at hcal1
  obtain rfl : cals = cals1 := by simpa using hcal1
  rw [hdel] at hcals
  simp only [Option.isNone_none, if_pos] at hcals
  refine ⟨hrows, ?_, ?_⟩
  · rw [hcals, List.filter_append, filter_deleted_self, hrows, inserts_filter_self,
      List.nil_append]
  · rw [hcals, List.filter_append, filter_deleted_idem, hrows, inserts_filter_other,
      List.append_nil]

/-- Claim C2 (corrected): after a sync that returns success and whose settings
upsert succeeded, the caller owns a settings row and every settings row of the
caller carries the provider token that was used for the calendarList call.
(When the upsert fails it is only logged and success is still returned without
the token persisted, see the counterexample.) -/
theorem sync_persists_provider_token (ctx : SyncContext) (db : Database)
    (uid tok : String) (rows : List CalendarRow) (msg : String)
    (hauth : ctx.auth = .ok uid)
    (htok : ctx.providerToken = some tok)
    (hset : ctx.settingsError = none)
    (hrun : (syncCalendarsHandler ctx db).1 = .success rows msg) :
    (∃ r, r ∈ (syncCalendarsHandler ctx db).2.user_settings ∧
      r.user_id = uid ∧ r.google_access_token = some tok)
    ∧ ∀ r ∈ (syncCalendarsHandler ctx db).2.user_settings,
        r.user_id = uid → r.google_access_token = some tok := by
  obtain ⟨uid1, cals1, hauth1, htok1, hcal1, hrows, hmsg, hcals, hsets⟩ :=
    sync_success_shape ctx db rows msg hrun
  rw [hauth] at hauth1
  obtain rfl : uid = uid1 := by simpa using hauth1
  rw [hset] at hsets
  simp only [Option.isNone_none, if_pos] at hsets
  rw [htok] at hsets
  simp only [Option.getD_some] at hsets
  rw [hsets]
  exact ⟨upsert_token_mem uid tok db.user_settings,
    upsert_token_all uid tok db.user_settings⟩

/-- Claim C8 (corrected): an event that passes the all-day filter is
normalized to the provider id; a title that is the summary when the summary
is nonempty and "Untitled Event" when the summary is absent or empty (JS
truthiness: the empty string also triggers the default, see the
counterexample); the description and location defaulted to the empty string;
the provider start and end instants; and a meeting link preferring a nonempty
hangout link over a nonempty html link over the empty string. -/
theorem format_event_fields (e : GoogleEvent) (ht : isTimedEvent e = true) :
    (formatEvent e).id = e.id
    ∧ (e.summary ≠ "" → (formatEvent e).title = e.summary)
    ∧ (e.summary = "" → (formatEvent e).title = "Untitled Event")
    ∧ (e.description = none → (formatEvent e).description = "")
    ∧ (∀ d, e.description = some d → d ≠ "" → (formatEvent e).description = d)
    ∧ (∀ t, e.start.dateTime = some t → (formatEvent e).startTime = t)
    ∧ (∀ t, e.«end».dateTime = some t → (formatEvent e).endTime = t)
    ∧ (e.location = none → (formatEvent e).location = "")
    ∧ (∀ l, e.location = some l → l ≠ "" → (formatEvent e).location = l)
    ∧ (∀ h, e.hangoutLink = some h → h ≠ "" → (formatEvent e).meetingLink = h)
    ∧ ((e.hangoutLink = none ∨ e.hangoutLink = some "") →
        ∀ l, e.htmlLink = some l → l ≠ "" → (formatEvent e).meetingLink = l)
    ∧ ((e.hangoutLink = none ∨ e.hangoutLink = some "") →
        (e.htmlLink = none ∨ e.htmlLink = some "") →
        (formatEvent e).meetingLink = "") := by
  refine ⟨rfl, ?_, ?_, ?_, ?_, ?_, ?_, ?_, ?_, ?_, ?_, ?_⟩
  · intro h; simp [formatEvent, jsOrStr, h]
  · intro h; simp [formatEvent, jsOrStr, h]
  · intro h; simp [formatEvent, jsOrOptStr, h]
  · intro d hd hne; simp [formatEvent, jsOrOptStr, jsOrStr, hd, hne]
  · intro t hturn; simp [formatEvent, hturn]
  · intro t hturn; simp [formatEvent, hturn]
  · intro h; simp [formatEvent, jsOrOptStr, h]
  · intro l hl hne; simp [formatEvent, jsOrOptStr, jsOrStr, hl, hne]
  · intro h hh hne; simp [formatEvent, jsOrOptStr, jsOrStr, hh, hne]
  · intro hha l hl hne
    rcases hha with h | h <;> simp [formatEvent, jsOrOptStr, jsOrStr, h, hl, hne]
  · intro hha hhl
    rcases hha with h | h <;> rcases hhl with h2 | h2 <;>
      simp [formatEvent, jsOrOptStr, jsOrStr, h, h2]

/-- Claim C9 (corrected): a SIGNED_IN auth event with a user updates the UI
state synchronously and schedules (deferred to the next event-loop turn, not
awaited) exactly one profile upsert for that user, whose display name is the
provider full name when it is present and nonempty, and otherwise the local
part of the email (an empty full name also falls back, by JS truthiness — see
the counterexample). -/
theorem signin_schedules_profile_upsert (event : String) (sess : AuthSession)
    (hev : event = "SIGNED_IN") :
    (onAuthStateChange event (some sess)).1 =
      { user := some sess.user, session := some sess, loading := false }
    ∧ (onAuthStateChange event (some sess)).2 = [createOrUpdateProfileRecord sess.user]
    ∧ (createOrUpdateProfileRecord sess.user).user_id = sess.user.id
    ∧ (createOrUpdateProfileRecord sess.user).email = sess.user.email
    ∧ (∀ f, sess.user.full_name = some f → f ≠ "" →
        (createOrUpdateProfileRecord sess.user).display_name = some f)
    ∧ ((sess.user.full_name = none ∨ sess.user.full_name = some "") →
        (createOrUpdateProfileRecord sess.user).display_name =
          sess.user.email.map localPart) := by
  refine ⟨?_, ?_, rfl, rfl, ?_, ?_⟩
  · simp [onAuthStateChange]
  · simp [onAuthStateChange, hev]
  · intro f hf hne
    simp [createOrUpdateProfileRecord, jsTruthy, hf, hne]
  · intro hf
    rcases hf with h | h <;> simp [createOrUpdateProfileRecord, jsTruthy, h]

/-! ## Concrete instances for witnesses and counterexamples -/

/-- A timed event starting 09:00 (minute 540). -/
def g900 : GoogleEvent :=
  { id := "e9", summary := "Standup", description := none,
    start := ⟨some 540, none⟩, «end» := ⟨some 570, none⟩,
    location := none, htmlLink := none, hangoutLink := none }

/-- A timed event starting 10:00 (minute 600). -/
def g1000 : GoogleEvent :=
  { id := "e10", summary := "Review", description := none,
    start := ⟨some 600, none⟩, «end» := ⟨some 660, none⟩,
    location := none, htmlLink := none, hangoutLink := none }

/-- A date-only (all-day) event: no dateTime on either side. -/
def gAllDay : GoogleEvent :=
  { id := "allday", summary := "Holiday", description := none,
    start := ⟨none, some "2025-06-01"⟩, «end» := ⟨none, some "2025-06-02"⟩,
    location := none, htmlLink := none, hangoutLink := none }

/-- Settings passing all four preconditions. -/
def okSettings : UserSettings :=
  { service_enabled := true, selected_calendar_id := some "cal-1",
    google_access_token := some "tok-1" }

/-- Settings with the service flag off and everything else valid. -/
def disabledSettings : UserSettings :=
  { service_enabled := false, selected_calendar_id := some "cal-1",
    google_access_token := some "tok-1" }

/-- Fetch at 09:30 (minute 570) over the sorted 09:00/10:00 event list. -/
def ctxScenario : FetchContext :=
  { authHeader := some "Bearer jwt", auth := .ok "u1", settings := some okSettings,
    eventsResponse := .ok [g900, g1000], now := 570 }

/-- Fetch at 08:30 (minute 510) over the UNSORTED 10:00-then-09:00 list. -/
def ctxUnsorted : FetchContext :=
  { authHeader := some "Bearer jwt", auth := .ok "u1", settings := some okSettings,
    eventsResponse := .ok [g1000, g900], now := 510 }

/-- Fetch over one timed and one all-day event. -/
def ctxMixed : FetchContext :=
  { authHeader := some "Bearer jwt", auth := .ok "u1", settings := some okSettings,
    eventsResponse := .ok [g900, gAllDay], now := 0 }

/-- Fetch with the service flag disabled. -/
def ctxDisabled : FetchContext :=
  { authHeader := some "Bearer jwt", auth := .ok "u1", settings := some disabledSettings,
    eventsResponse := .ok [g900], now := 0 }

/-- Fetch whose provider call answers 401. -/
def ctx401 : FetchContext :=
  { authHeader := some "Bearer jwt", auth := .ok "u1", settings := some okSettings,
    eventsResponse := .httpError 401 "Unauthorized", now := 0 }

/-- Fetch whose provider call answers 503. -/
def ctx503 : FetchContext :=
  { authHeader := some "Bearer jwt", auth := .ok "u1", settings := some okSettings,
    eventsResponse := .httpError 503 "Service Unavailable", now := 0 }

/-- Fetch without an Authorization header. -/
def ctxNoAuth : FetchContext :=
  { authHeader := none, auth := .noUser, settings := none,
    eventsResponse := .ok [], now := 0 }

/-- A provider calendar marked primary, with an empty description. -/
def calW1 : GoogleCalendar :=
  { id := "c1", summary := "Work", description := some "", primary := some true }

/-- A provider calendar with no primary flag. -/
def calW2 : GoogleCalendar :=
  { id := "c2", summary := "Home", description := none, primary := none }

/-- A pre-existing stored calendar row of user u1. -/
def staleRow : CalendarRow :=
  { user_id := "u1", calendar_id := "old-cal", calendar_name := "Old",
    calendar_description := none, is_primary := false }

/-- A store holding one stale u1 row and one row of another user. -/
def dbBefore : Database :=
  { user_calendars := [staleRow,
      { user_id := "u2", calendar_id := "keep", calendar_name := "Keep",
        calendar_description := none, is_primary := true }],
    user_settings := [] }

/-- A store holding only the stale u1 row. -/
def dbStale : Database :=
  { user_calendars := [staleRow], user_settings := [] }

/-- A fully successful sync of two calendars for u1. -/
def ctxSyncOk : SyncContext :=
  { authHeader := some "Bearer jwt", auth := .ok "u1", providerToken := some "ptok",
    calendarResponse := .ok [calW1, calW2], deleteError := none, insertError := none,
    settingsError := none }

/-- A sync whose delete call fails (only logged) and whose fetched list is
empty. -/
def ctxDeleteFails : SyncContext :=
  { authHeader := some "Bearer jwt", auth := .ok "u1", providerToken := some "ptok",
    calendarResponse := .ok [], deleteError := some "database unavailable",
    insertError := none, settingsError := none }

/-- A sync whose settings upsert fails (only logged). -/
def ctxUpsertFails : SyncContext :=
  { authHeader := some "Bearer jwt", auth := .ok "u1", providerToken := some "ptok",
    calendarResponse := .ok [calW1], deleteError := none, insertError := none,
    settingsError := some "settings table unavailable" }

/-- An event with every optional field populated. -/
def gFull : GoogleEvent :=
  { id := "evt-1", summary := "Planning", description := some "Quarterly planning",
    start := ⟨some 540, none⟩, «end» := ⟨some 600, none⟩,
    location := some "Room A", htmlLink := some "https://calendar.example/evt-1",
    hangoutLink := some "https://meet.example/evt-1" }

/-- An event whose summary is the empty string and whose hangout link is the
empty string while an html link is present. -/
def gEmptySummary : GoogleEvent :=
  { id := "evt-2", summary := "", description := none,
    start := ⟨some 540, none⟩, «end» := ⟨some 600, none⟩,
    location := none, htmlLink := some "https://calendar.example/evt-2",
    hangoutLink := some "" }

/-- A signed-in user with no full name in the provider metadata. -/
def janeUser : AuthUser :=
  { id := "uid-jane", email := some "jane.doe@example.com", full_name := none,
    avatar_url := none }

/-- A session for that user. -/
def janeSession : AuthSession :=
  { user := janeUser, provider_token := some "ptok" }

/-- A signed-in user whose provider metadata carries an empty full name. -/
def emptyNameUser : AuthUser :=
  { id := "uid-sam", email := some "sam@example.com", full_name := some "",
    avatar_url := none }

/-! ## Witnesses and counterexamples -/

/-- Witness for C3: events at 09:00 and 10:00, request instant 09:30: the
selected next event is the 10:00 one, it starts after 09:30, and it is
earliest among the filtered events starting after 09:30. -/
theorem next_event_earliest_when_sorted_witness :
    formatEvent g1000 ∈ filteredEvents [g900, g1000]
    ∧ (570 : Int) < (formatEvent g1000).startTime
    ∧ ∀ f ∈ filteredEvents [g900, g1000], (570 : Int) < f.startTime →
        (formatEvent g1000).startTime ≤ f.startTime :=
  (next_event_earliest_when_sorted ctxScenario (filteredEvents [g900, g1000])
    (some (formatEvent g1000)) 2 (by decide) rfl).1 (formatEvent g1000) rfl

/-- Counterexample for C3 as stated: on an unsorted provider list (the 10:00
event listed first), with request instant 08:30, the code selects the 10:00
event even though the 09:00 event also starts strictly after 08:30 and is
strictly earlier — nextEvent is not the earliest such event. -/
theorem next_event_not_earliest_on_unsorted_list :
    fetchEventsHandler ctxUnsorted =
      .success [formatEvent g1000, formatEvent g900] (some (formatEvent g1000)) 2
    ∧ formatEvent g900 ∈ [formatEvent g1000, formatEvent g900]
    ∧ (510 : Int) < (formatEvent g900).startTime
    ∧ (formatEvent g900).startTime < (formatEvent g1000).startTime :=
  ⟨rfl, by decide, by decide, by decide⟩

/-- Witness for C4: with one timed and one all-day event, the timed event is
normalized into the result and the all-day event is dropped by the filter. -/
theorem all_day_events_excluded_witness :
    formatEvent g900 ∈ filteredEvents [g900, gAllDay]
    ∧ gAllDay ∉ [g900, gAllDay].filter isTimedEvent :=
  ⟨(all_day_events_excluded ctxMixed [g900, gAllDay] (filteredEvents [g900, gAllDay])
      (nextEvent (filteredEvents [g900, gAllDay]) 0) 1 rfl rfl).1 g900 (by decide) rfl rfl,
   (all_day_events_excluded ctxMixed [g900, gAllDay] (filteredEvents [g900, gAllDay])
      (nextEvent (filteredEvents [g900, gAllDay]) 0) 1 rfl rfl).2.2 gAllDay (by decide)
      (Or.inl rfl)⟩

/-- Witness for C5: with the service flag false, valid token and calendar
present, fetch fails with the service-disabled error even when the provider
response value says the upstream would have failed. -/
theorem fetch_precondition_errors_witness :
    fetchEventsHandler { ctxDisabled with eventsResponse := .httpError 500 "never called" } =
      .failure "Calert service is not enabled" :=
  (fetch_precondition_errors ctxDisabled "Bearer jwt" "u1" rfl rfl).2.1
    disabledSettings rfl rfl (.httpError 500 "never called")

/-- Witness for C6: provider 401 yields exactly the token-expired error;
provider 503 yields the generic upstream error with status and body. -/
theorem fetch_upstream_errors_witness :
    fetchEventsHandler ctx401 =
      .failure "Google access token expired. Please reconnect your Google account."
    ∧ fetchEventsHandler ctx503 =
      .failure ("Google Calendar API error: " ++ toString (503 : Nat) ++ " - " ++ "Service Unavailable") :=
  ⟨(fetch_upstream_errors ctx401 "Bearer jwt" "u1" okSettings rfl rfl rfl rfl rfl
      rfl).1 "Unauthorized" rfl,
   (fetch_upstream_errors ctx503 "Bearer jwt" "u1" okSettings rfl rfl rfl rfl rfl
      rfl).2 503 "Service Unavailable" rfl (by decide)⟩

/-- Witness for C7: a fetch without an Authorization header is converted to
HTTP 500 with the error envelope. -/
theorem failures_return_500_envelope_witness :
    fetchEventsResponse ctxNoAuth =
      { status := 500, body := .errorEnvelope "No authorization header provided" } :=
  failures_return_500_envelope.1 ctxNoAuth "No authorization header provided" rfl

/-- Counterexample for C7 as stated: a sync whose delete storage call fails
still returns HTTP 200 with a success body — that storage failure is not
converted to a 500 error envelope. -/
theorem logged_storage_failure_returns_200 :
    ctxDeleteFails.deleteError = some "database unavailable"
    ∧ (syncCalendarsResponse ctxDeleteFails dbStale).1.status = 200
    ∧ (syncCalendarsResponse ctxDeleteFails dbStale).1.body =
        .syncSuccess [] "Successfully synced 0 calendars" :=
  ⟨rfl, by decide, by decide⟩

/-- Witness for C1: a successful sync of two fetched calendars (one marked
primary) over a store holding a stale row of the caller and a row of another
user: afterwards the caller's rows are exactly the two mapped rows, the
primary flag preserved (true on the first, false on the second). -/
theorem calendars_replaced_wholesale_witness :
    (syncCalendarsHandler ctxSyncOk dbBefore).2.user_calendars.filter
        (fun r => r.user_id == "u1")
      = [calendarInsertOf "u1" calW1, calendarInsertOf "u1" calW2]
    ∧ (calendarInsertOf "u1" calW1).is_primary = true
    ∧ (calendarInsertOf "u1" calW2).is_primary = false :=
  ⟨(calendars_replaced_wholesale ctxSyncOk dbBefore "u1" [calW1, calW2]
      [calendarInsertOf "u1" calW1, calendarInsertOf "u1" calW2]
      "Successfully synced 2 calendars" rfl rfl rfl (by decide)).2.1,
   by decide, by decide⟩

/-- Counterexample for C1 as stated: the fetched list is empty, the delete
fails (only logged), the response is success — yet the stale stored row of
the caller survives, so the stored set does not equal the fetched set. -/
theorem sync_success_despite_failed_delete :
    (syncCalendarsHandler ctxDeleteFails dbStale).1 =
      .success [] "Successfully synced 0 calendars"
    ∧ (syncCalendarsHandler ctxDeleteFails dbStale).2.user_calendars.filter
        (fun r => r.user_id == "u1") = [staleRow]
    ∧ ([staleRow] : List CalendarRow) ≠ [] :=
  ⟨by decide, by decide, by decide⟩

/-- Witness for C2: after the fully successful sync the caller owns a
settings row carrying the provider token that was used for the call. -/
theorem sync_persists_provider_token_witness :
    ∃ r, r ∈ (syncCalendarsHandler ctxSyncOk dbBefore).2.user_settings ∧
      r.user_id = "u1" ∧ r.google_access_token = some "ptok" :=
  (sync_persists_provider_token ctxSyncOk dbBefore "u1" "ptok"
    [calendarInsertOf "u1" calW1, calendarInsertOf "u1" calW2]
    "Successfully synced 2 calendars" rfl rfl rfl (by decide)).1

/-- Counterexample for C2 as stated: the settings upsert fails (only logged),
the sync still returns success, and afterwards the caller has no settings row
at all — the token was not persisted. -/
theorem sync_success_despite_failed_settings_upsert :
    (syncCalendarsHandler ctxUpsertFails dbBefore).1 =
      .success [calendarInsertOf "u1" calW1] "Successfully synced 1 calendars"
    ∧ (syncCalendarsHandler ctxUpsertFails dbBefore).2.user_settings = [] :=
  ⟨by decide, by decide⟩

/-- Witness for C8: a fully populated event keeps its id, summary as title,
start instant, and prefers the hangout link. -/
theorem format_event_fields_witness :
    (formatEvent gFull).id = gFull.id
    ∧ (formatEvent gFull).title = gFull.summary
    ∧ (formatEvent gFull).startTime = 540
    ∧ (formatEvent gFull).meetingLink = "https://meet.example/evt-1" :=
  ⟨(format_event_fields gFull rfl).1,
   (format_event_fields gFull rfl).2.1 (by decide),
   (format_event_fields gFull rfl).2.2.2.2.2.1 540 rfl,
   (format_event_fields gFull rfl).2.2.2.2.2.2.2.2.2.1 "https://meet.example/evt-1"
     rfl (by decide)⟩

/-- Counterexample for C8 as stated: a present-but-empty summary is titled
"Untitled Event" rather than the provider summary, and a present-but-empty
hangout link is passed over in favour of the html link. -/
theorem empty_summary_titled_untitled :
    gEmptySummary.summary = ""
    ∧ (formatEvent gEmptySummary).title = "Untitled Event"
    ∧ (formatEvent gEmptySummary).title ≠ gEmptySummary.summary
    ∧ gEmptySummary.hangoutLink = some ""
    ∧ (formatEvent gEmptySummary).meetingLink = "https://calendar.example/evt-2" :=
  ⟨rfl, rfl, by decide, rfl, rfl⟩

/-- Witness for C9: a SIGNED_IN event for a user with no full name schedules
exactly one deferred profile upsert whose display name is the local part of
the email. -/
theorem signin_schedules_profile_upsert_witness :
    (onAuthStateChange "SIGNED_IN" (some janeSession)).2 =
      [createOrUpdateProfileRecord janeUser]
    ∧ (createOrUpdateProfileRecord janeUser).display_name =
        janeUser.email.map localPart
    ∧ janeUser.email.map localPart = some "jane.doe" :=
  ⟨(signin_schedules_profile_upsert "SIGNED_IN" janeSession rfl).2.1,
   (signin_schedules_profile_upsert "SIGNED_IN" janeSession rfl).2.2.2.2.2
     (Or.inl rfl),
   by decide⟩

/-- Counterexample for C9 as stated: a present-but-empty full name is not
used as the display name; the code falls back to the email local part. -/
theorem empty_full_name_falls_back_to_email :
    emptyNameUser.full_name = some ""
    ∧ (createOrUpdateProfileRecord emptyNameUser).display_name = some "sam"
    ∧ (createOrUpdateProfileRecord emptyNameUser).display_name ≠ emptyNameUser.full_name :=
  ⟨rfl, by decide, by decide⟩

/-- Witness for C10: in the 09:00/10:00 scenario the count is the length of
the events array and the non-null next event is an element of it. -/
theorem fetch_success_invariants_witness :
    (2 : Nat) = (filteredEvents [g900, g1000]).length
    ∧ ∀ e, some (formatEvent g1000) = some e → e ∈ filteredEvents [g900, g1000] :=
  fetch_success_invariants ctxScenario (filteredEvents [g900, g1000])
    (some (formatEvent g1000)) 2 rfl

end Calert
